import Mathlib

/-
Verification of examples/common-whisper.cpp: audio ingestion and
preprocessing utilities (resampler lifecycle, RNNoise frame loop,
decode-to-PCM adapter with stereo demultiplexing, and timestamp
conversion).

Samples are modelled as rationals: the code stores 32-bit floats, but every
property checked here is structural (which sample goes where, which values
are handed to external capabilities) or uses only scaling by 32768 = 2^15,
which is exact in binary floating point as well.  Machine integers are
modelled as unbounded Int with explicit wrap-around where the code performs
a narrowing cast, and with explicit in-range predicates where overflow is
the question.  The miniaudio decoder, the miniaudio linear resampler and
the RNNoise frame processor are external capabilities (their sources are
not part of this repository's core); they are modelled from the spec as
parameters or as response records, as documented at each definition.
-/

namespace CommonWhisper

abbrev Sample := ℚ

/-- WHISPER_SAMPLE_RATE from whisper.h: the pipeline's native rate. -/
def WHISPER_SAMPLE_RATE : Int := 16000

/-- RNNOISE_SAMPLE_RATE from common-whisper.cpp line 31. -/
def RNNOISE_SAMPLE_RATE : Int := 48000

/-- RNNOISE_FRAME_SIZE from common-whisper.cpp line 32. -/
def RNNOISE_FRAME_SIZE : Nat := 480

/-- Two's-complement narrowing of a 64-bit (or wider) value to a 32-bit
signed int, modelling the C cast (int) x. -/
def int32_wrap (x : Int) : Int := (x + 2 ^ 31) % 2 ^ 32 - 2 ^ 31

/-- in_int64 x means x is representable as a C int64_t. -/
def in_int64 (x : Int) : Prop := -(2 ^ 63) ≤ x ∧ x ≤ 2 ^ 63 - 1

/-- in_int32 x means x is representable as a C int. -/
def in_int32 (x : Int) : Prop := -(2 ^ 31) ≤ x ∧ x ≤ 2 ^ 31 - 1

/-- Decimal rendering of a natural number, left-padded with zeros to the
given width, as snprintf %0Nd does for non-negative values. -/
def zeroPadNat (width : Nat) (n : Nat) : String :=
  let s := toString n
  String.mk (List.replicate (width - s.length) '0') ++ s

/-- snprintf %0Nd on an int: sign first, zero padding counts toward the
total width. -/
def printfPad (width : Nat) (n : Int) : String :=
  if n < 0 then "-" ++ zeroPadNat (width - 1) n.natAbs
  else zeroPadNat width n.toNat

/-- Intermediate msec value of to_timestamp: int64_t msec = t * 10. -/
def tt_msec0 (t : Int) : Int := t * 10

/-- Intermediate hr value of to_timestamp: msec / (1000*60*60), C++ int64
division truncating toward zero. -/
def tt_hr (t : Int) : Int := Int.tdiv (tt_msec0 t) 3600000

/-- msec after subtracting the hours: msec = msec - hr * (1000*60*60). -/
def tt_msec1 (t : Int) : Int := tt_msec0 t - tt_hr t * 3600000

/-- Intermediate min value of to_timestamp: msec / (1000*60). -/
def tt_min (t : Int) : Int := Int.tdiv (tt_msec1 t) 60000

/-- msec after subtracting the minutes: msec = msec - min * (1000*60). -/
def tt_msec2 (t : Int) : Int := tt_msec1 t - tt_min t * 60000

/-- Intermediate sec value of to_timestamp: msec / 1000. -/
def tt_sec (t : Int) : Int := Int.tdiv (tt_msec2 t) 1000

/-- Final msec value of to_timestamp: msec = msec - sec * 1000. -/
def tt_msec3 (t : Int) : Int := tt_msec2 t - tt_sec t * 1000

/-- to_timestamp from common-whisper.cpp lines 236-249: formats a
centisecond count as HH:MM:SS followed by milliseconds, with a comma or
period separator.  Each field is narrowed to int by the snprintf call's
(int) casts. -/
def to_timestamp (t : Int) (comma : Bool) : String :=
  printfPad 2 (int32_wrap (tt_hr t)) ++ ":" ++
  printfPad 2 (int32_wrap (tt_min t)) ++ ":" ++
  printfPad 2 (int32_wrap (tt_sec t)) ++
  (if comma then "," else ".") ++
  printfPad 3 (int32_wrap (tt_msec3 t))

/-- to_timestamp computes without overflow at t when t itself, the product
t * 10, and every later intermediate fit in int64_t, and the four printed
fields fit in int so the narrowing casts are value-preserving. -/
def to_timestamp_overflow_free (t : Int) : Prop :=
  in_int64 t ∧ in_int64 (tt_msec0 t) ∧ in_int64 (tt_msec1 t) ∧
  in_int64 (tt_msec2 t) ∧ in_int32 (tt_hr t) ∧ in_int32 (tt_min t) ∧
  in_int32 (tt_sec t) ∧ in_int32 (tt_msec3 t)

/-- timestamp_to_sample from common-whisper.cpp lines 251-253:
max(0, min((int) n_samples - 1, (int) ((t*whisper_sample_rate)/100))).
Both operands of min are int expressions: the subtraction n_samples - 1
is int arithmetic and wraps at INT_MIN, and the computed index is
narrowed to int by the cast; both are modelled with int32_wrap. -/
def timestamp_to_sample (t : Int) (n_samples : Int) (sample_rate : Int) : Int :=
  max 0 (min (int32_wrap (n_samples - 1))
    (int32_wrap (Int.tdiv (t * sample_rate) 100)))

/-- Modelled from the spec: one ma_linear_resampler instance of the
external miniaudio capability (not part of this repository's core).  Its
observable behaviour in resample_audio is the composite
reset-then-expected-count-then-process-then-resize step, which maps the
whole input buffer to the output buffer the capability actually produced;
proc is that map. -/
structure LinearResampler where
  proc : List Sample → List Sample

/-- resample_audio from common-whisper.cpp lines 80-97: returns the input
unchanged when it is empty or when the process-wide resamplers are not
initialized; otherwise resets the instance and converts, resizing the
output to the frames actually produced (folded into proc, see
LinearResampler). -/
def resample_audio (resampler : LinearResampler) (g_resamplers_inited : Bool)
    (input : List Sample) : List Sample :=
  if input = [] ∨ g_resamplers_inited = false then input
  else resampler.proc input

/-- Frame loop of denoise_audio, common-whisper.cpp lines 106-121: while a
full 480-sample window remains, scale it by 32768, hand it to the external
rnnoise_process_frame capability (the parameter rn, modelled from the
spec as an arbitrary length-preserving frame transformer), scale the
result back by 32768 and write it over the window, then advance by 480.
Samples past the last full window are left untouched. -/
def denoise_frames (rn : List Sample → List Sample) (buf : List Sample) :
    List Sample :=
  if h : RNNOISE_FRAME_SIZE ≤ buf.length then
    (rn ((buf.take RNNOISE_FRAME_SIZE).map (fun x => x * 32768))).map
        (fun x => x / 32768) ++
      denoise_frames rn (buf.drop RNNOISE_FRAME_SIZE)
  else buf
termination_by buf.length
decreasing_by
  simp only [List.length_drop, RNNOISE_FRAME_SIZE] at *
  omega

/-- denoise_audio from common-whisper.cpp lines 99-125: no-op on empty
input, otherwise upsample 16k to 48k, run the 480-sample frame loop, and
downsample 48k back to 16k, replacing the caller's buffer.  The two global
resampler instances and the global init flag are passed explicitly. -/
def denoise_audio (rn : List Sample → List Sample)
    (g_resampler_16k_to_48k g_resampler_48k_to_16k : LinearResampler)
    (g_resamplers_inited : Bool) (pcmf32 : List Sample) : List Sample :=
  if pcmf32 = [] then pcmf32
  else
    resample_audio g_resampler_48k_to_16k g_resamplers_inited
      (denoise_frames rn
        (resample_audio g_resampler_16k_to_48k g_resamplers_inited pcmf32))

/-- Process-wide resampler state of common-whisper.cpp lines 35-37: the
two static ma_linear_resampler instances (as Option: some when holding an
initialized instance) and the g_resamplers_initialized flag. -/
structure ResamplerState where
  g_up : Option LinearResampler
  g_down : Option LinearResampler
  g_inited : Bool

/-- init_resamplers from common-whisper.cpp lines 39-69.  The two
ma_linear_resampler_init calls are external and fallible; their outcomes
are passed as parameters (none models MA_SUCCESS not returned).  Returns
the new state and the bool result: early true when already initialized;
false leaving state untouched when the first init fails; false after
uninit of the first instance when the second fails; otherwise both
instances are stored and the flag is set. -/
def init_resamplers (st : ResamplerState)
    (up_outcome : Option LinearResampler)
    (down_outcome : Option LinearResampler) : ResamplerState × Bool :=
  if st.g_inited then (st, true)
  else
    match up_outcome with
    | none => (st, false)
    | some r_up =>
      match down_outcome with
      | none => (⟨none, st.g_down, st.g_inited⟩, false)
      | some r_down => (⟨some r_up, some r_down, true⟩, true)

/-- uninit_resamplers from common-whisper.cpp lines 71-77: no-op when not
initialized, otherwise releases both instances and clears the flag. -/
def uninit_resamplers (st : ResamplerState) : ResamplerState :=
  if st.g_inited = false then st else ⟨none, none, false⟩

/-- Modelled from the spec: the responses of the external miniaudio
decode capability (ma_decoder, not part of this repository's core) to the
four calls read_audio_data makes.  openOk: whether one of the init paths
succeeded; lengthOk and frameCount: result and value of
ma_decoder_get_length_in_pcm_frames; readOk and framesRead: result code
and frames-read count of ma_decoder_read_pcm_frames (the interface is
fallible at every step and may deliver fewer frames than requested even
with a success code); data: the interleaved PCM the read call delivers,
already at the requested channel count and fixed rate. -/
structure Decoder where
  openOk : Bool
  lengthOk : Bool
  frameCount : Nat
  readOk : Bool
  framesRead : Nat
  data : List Sample

/-- read_audio_data from common-whisper.cpp lines 140-232, with the
decoder capability's responses supplied as a Decoder record and the
in/out parameter pcmf32s passed in (returned unchanged on the non-stereo
path, as the source never touches it there).  none models returning
false.  The buffer is resized to frame_count frames (times 2 when stereo)
zero-filled, the read overwrites the delivered samples, and on the stereo
path the interleaved buffer is demultiplexed: mono[i] is the sum of the
two channel samples of frame i and the channel set holds the two channels
separately. -/
def read_audio_data (decoder : Decoder) (stereo : Bool)
    (pcmf32s : List (List Sample)) :
    Option (List Sample × List (List Sample)) :=
  if decoder.openOk = false then none
  else if decoder.lengthOk = false then none
  else
    let frame_count := decoder.frameCount
    let channels : Nat := if stereo then 2 else 1
    let total := frame_count * channels
    let written := min (decoder.framesRead * channels) total
    let pcmf32 := decoder.data.take written ++ List.replicate (total - written) 0
    if decoder.readOk = false then none
    else if stereo then
      let stereo_data := pcmf32
      let mono := (List.range frame_count).map
        (fun i => stereo_data.getD (2 * i) 0 + stereo_data.getD (2 * i + 1) 0)
      let ch0 := (List.range frame_count).map
        (fun i => stereo_data.getD (2 * i) 0)
      let ch1 := (List.range frame_count).map
        (fun i => stereo_data.getD (2 * i + 1) 0)
      some (mono, [ch0, ch1])
    else some (pcmf32, pcmf32s)

/-- An audio source as the decode capability sees it: frames of samples,
one sample per channel. -/
structure AudioSource where
  channels : Nat
  frames : List (List Sample)

/-- Modelled from the spec: the channel conversion the external decode
capability applies when opened with a desired output channel count.  A
frame already at the requested count passes through; a frame with a
different count (the case exercised here is a mono frame requested at two
channels) has its first sample replicated across all output channels,
the capability's mono upmix. -/
def convertFrame (requested : Nat) (frame : List Sample) : List Sample :=
  if frame.length = requested then frame
  else List.replicate requested (frame.getD 0 0)

/-- Modelled from the spec: a well-behaved decode of an audio source at a
requested channel count — open succeeds, the length query reports the
source's frame count, and the read delivers every frame, interleaved at
the requested channel count. -/
def decodeSource (src : AudioSource) (requested : Nat) : Decoder :=
  ⟨true, true, src.frames.length, true, src.frames.length,
    (src.frames.map (convertFrame requested)).flatten⟩

/-- Concrete decoder response: a fully delivered 2-frame stereo read. -/
def dec_stereo_ex : Decoder := ⟨true, true, 2, true, 2, [1, 2, 3, 4]⟩

/-- Concrete decoder response: the read reports success but delivers only
1 of the 2 queried frames. -/
def dec_short_ex : Decoder := ⟨true, true, 2, true, 1, [5]⟩

/-- Concrete decoder response: the length query fails. -/
def dec_badlen_ex : Decoder := ⟨true, false, 2, true, 2, [5]⟩

/-- Concrete mono source with two frames. -/
def src_mono_ex : AudioSource := ⟨1, [[1], [2]]⟩

end CommonWhisper

namespace CommonWhisper

theorem range_map_getD (f : Nat → Sample) (n i : Nat) (h : i < n) :
    ((List.range n).map f).getD i 0 = f i := by
  rw [List.getD_eq_getElem _ _ (by simp [h])]
  simp [h]

theorem mono_flatten_length :
    ∀ fs : List (List Sample), (∀ f ∈ fs, f.length = 1) →
      fs.flatten.length = fs.length := by
  intro fs
  induction fs with
  | nil => intro _; simp
  | cons f rest ih =>
    intro h
    simp only [List.flatten_cons, List.length_append, List.length_cons]
    rw [h f (by simp), ih (fun g hg => h g (by simp [hg]))]
    omega

theorem mono_map_convert_one :
    ∀ fs : List (List Sample), (∀ f ∈ fs, f.length = 1) →
      fs.map (convertFrame 1) = fs := by
  intro fs
  induction fs with
  | nil => intro _; simp
  | cons f rest ih =>
    intro h
    simp only [List.map_cons, List.cons.injEq]
    constructor
    · unfold convertFrame
      simp [h f (by simp)]
    · exact ih (fun g hg => h g (by simp [hg]))

theorem dup_flatten_getD :
    ∀ fs : List (List Sample), (∀ f ∈ fs, f.length = 1) →
      ∀ i, ((fs.map (convertFrame 2)).flatten.getD (2 * i) 0 =
          fs.flatten.getD i 0 ∧
        (fs.map (convertFrame 2)).flatten.getD (2 * i + 1) 0 =
          fs.flatten.getD i 0) := by
  intro fs
  induction fs with
  | nil => intro _ i; simp
  | cons f rest ih =>
    intro h i
    obtain ⟨a, ha⟩ := List.length_eq_one.mp (h f (by simp))
    subst ha
    have hcv : convertFrame 2 [a] = [a, a] := by
      unfold convertFrame
      simp
    simp only [List.map_cons, List.flatten_cons, hcv]
    cases i with
    | zero => simp
    | succ j =>
      have e1 : 2 * (j + 1) = 2 * j + 1 + 1 := by omega
      rw [e1]
      simp only [List.cons_append, List.nil_append, List.getD_cons_succ]
      exact ih (fun g hg => h g (by simp [hg])) j

theorem dup_flatten_length :
    ∀ fs : List (List Sample), (∀ f ∈ fs, f.length = 1) →
      ((fs.map (convertFrame 2)).flatten).length = 2 * fs.length := by
  intro fs
  induction fs with
  | nil => intro _; simp
  | cons f rest ih =>
    intro h
    obtain ⟨a, ha⟩ := List.length_eq_one.mp (h f (by simp))
    subst ha
    have hcv : convertFrame 2 [a] = [a, a] := by
      unfold convertFrame
      simp
    simp only [List.map_cons, List.flatten_cons, hcv, List.length_append,
      List.length_cons, List.length_nil]
    rw [ih (fun g hg => h g (by simp [hg]))]
    omega

theorem read_audio_data_mono_full (d : Decoder) (s0 : List (List Sample))
    (hopen : d.openOk = true) (hlen : d.lengthOk = true)
    (hread : d.readOk = true) (hfr : d.framesRead = d.frameCount)
    (hdata : d.data.length = d.frameCount) :
    read_audio_data d false s0 = some (d.data, s0) := by
  unfold read_audio_data
  have h1 : d.frameCount * 1 = d.data.length := by omega
  simp only [hopen, hlen, hread, hfr, Bool.true_eq_false, if_false, if_neg,
    Bool.false_eq_true, ite_false, ite_true]
  rw [h1, min_self, List.take_length, Nat.sub_self, List.replicate_zero,
    List.append_nil]

theorem read_audio_data_stereo_full (d : Decoder) (s0 : List (List Sample))
    (hopen : d.openOk = true) (hlen : d.lengthOk = true)
    (hread : d.readOk = true) (hfr : d.framesRead = d.frameCount)
    (hdata : d.data.length = 2 * d.frameCount) :
    read_audio_data d true s0 =
      some ((List.range d.frameCount).map
          (fun i => d.data.getD (2 * i) 0 + d.data.getD (2 * i + 1) 0),
        [(List.range d.frameCount).map (fun i => d.data.getD (2 * i) 0),
         (List.range d.frameCount).map (fun i => d.data.getD (2 * i + 1) 0)]) := by
  unfold read_audio_data
  have h1 : d.frameCount * 2 = d.data.length := by omega
  simp only [hopen, hlen, hread, hfr, Bool.true_eq_false, if_false, if_neg,
    Bool.false_eq_true, ite_false, ite_true]
  rw [h1, min_self, List.take_length, Nat.sub_self, List.replicate_zero,
    List.append_nil]

theorem drop_len_append (p l2 : List Sample) (i : Nat)
    (hp : p.length = RNNOISE_FRAME_SIZE) :
    List.drop (RNNOISE_FRAME_SIZE + i) (p ++ l2) = List.drop i l2 := by
  rw [← hp, List.drop_append]

theorem take_len_append (p l2 : List Sample)
    (hp : p.length = RNNOISE_FRAME_SIZE) :
    (p ++ l2).take RNNOISE_FRAME_SIZE = p := by
  rw [← hp, List.take_left]

theorem denoise_frames_len (rn : List Sample → List Sample)
    (hrn : ∀ l, (rn l).length = l.length) :
    ∀ fuel (buf : List Sample), buf.length ≤ fuel →
      (denoise_frames rn buf).length = buf.length := by
  intro fuel
  induction fuel with
  | zero =>
    intro buf hb
    rw [denoise_frames]
    have : ¬ RNNOISE_FRAME_SIZE ≤ buf.length := by
      simp only [RNNOISE_FRAME_SIZE]
      omega
    simp [this]
  | succ n ih =>
    intro buf hb
    rw [denoise_frames]
    by_cases h : RNNOISE_FRAME_SIZE ≤ buf.length
    · have hrec := ih (buf.drop RNNOISE_FRAME_SIZE)
        (by simp only [List.length_drop, RNNOISE_FRAME_SIZE] at *; omega)
      simp only [h, dif_pos, List.length_append, List.length_map, hrn,
        List.length_take, List.length_drop, hrec]
      simp only [RNNOISE_FRAME_SIZE] at *
      omega
    · simp [h]

theorem denoise_frames_tail (rn : List Sample → List Sample)
    (hrn : ∀ l, (rn l).length = l.length) :
    ∀ fuel (buf : List Sample), buf.length ≤ fuel →
      (denoise_frames rn buf).drop
          (RNNOISE_FRAME_SIZE * (buf.length / RNNOISE_FRAME_SIZE)) =
        buf.drop (RNNOISE_FRAME_SIZE * (buf.length / RNNOISE_FRAME_SIZE)) := by
  intro fuel
  induction fuel with
  | zero =>
    intro buf hb
    rw [denoise_frames]
    have : ¬ RNNOISE_FRAME_SIZE ≤ buf.length := by
      simp only [RNNOISE_FRAME_SIZE]; omega
    simp [this]
  | succ n ih =>
    intro buf hb
    by_cases h : RNNOISE_FRAME_SIZE ≤ buf.length
    · rw [denoise_frames]
      simp only [h, dif_pos]
      have hplen : ((rn ((buf.take RNNOISE_FRAME_SIZE).map
          (fun x => x * 32768))).map (fun x => x / 32768)).length =
          RNNOISE_FRAME_SIZE := by
        simp [hrn, List.length_take]
        simp only [RNNOISE_FRAME_SIZE] at *
        omega
      have hq : buf.length / RNNOISE_FRAME_SIZE =
          (buf.drop RNNOISE_FRAME_SIZE).length / RNNOISE_FRAME_SIZE + 1 := by
        simp only [List.length_drop, RNNOISE_FRAME_SIZE] at *
        omega
      rw [hq]
      have harith : RNNOISE_FRAME_SIZE *
          ((buf.drop RNNOISE_FRAME_SIZE).length / RNNOISE_FRAME_SIZE + 1) =
          RNNOISE_FRAME_SIZE + RNNOISE_FRAME_SIZE *
            ((buf.drop RNNOISE_FRAME_SIZE).length / RNNOISE_FRAME_SIZE) := by
        ring
      rw [harith]
      rw [drop_len_append _ _ _ hplen]
      rw [ih (buf.drop RNNOISE_FRAME_SIZE)
        (by simp only [List.length_drop, RNNOISE_FRAME_SIZE] at *; omega)]
      rw [List.drop_drop]
    · rw [denoise_frames]
      simp [h]

theorem denoise_frames_chunk (rn : List Sample → List Sample)
    (hrn : ∀ l, (rn l).length = l.length) :
    ∀ k (buf : List Sample), k < buf.length / RNNOISE_FRAME_SIZE →
      ((denoise_frames rn buf).drop (RNNOISE_FRAME_SIZE * k)).take
          RNNOISE_FRAME_SIZE =
        (rn (((buf.drop (RNNOISE_FRAME_SIZE * k)).take RNNOISE_FRAME_SIZE).map
          (fun x => x * 32768))).map (fun x => x / 32768) := by
  intro k
  induction k with
  | zero =>
    intro buf hk
    have h : RNNOISE_FRAME_SIZE ≤ buf.length := by
      simp only [RNNOISE_FRAME_SIZE] at *
      omega
    rw [denoise_frames]
    simp only [h, dif_pos, Nat.mul_zero, List.drop_zero]
    have hplen : ((rn ((buf.take RNNOISE_FRAME_SIZE).map
        (fun x => x * 32768))).map (fun x => x / 32768)).length =
        RNNOISE_FRAME_SIZE := by
      simp [hrn, List.length_take]
      simp only [RNNOISE_FRAME_SIZE] at *
      omega
    rw [take_len_append _ _ hplen]
  | succ k ih =>
    intro buf hk
    have h : RNNOISE_FRAME_SIZE ≤ buf.length := by
      simp only [RNNOISE_FRAME_SIZE] at *
      omega
    rw [denoise_frames]
    simp only [h, dif_pos]
    have hplen : ((rn ((buf.take RNNOISE_FRAME_SIZE).map
        (fun x => x * 32768))).map (fun x => x / 32768)).length =
        RNNOISE_FRAME_SIZE := by
      simp [hrn, List.length_take]
      simp only [RNNOISE_FRAME_SIZE] at *
      omega
    have hmul : RNNOISE_FRAME_SIZE * (k + 1) =
        RNNOISE_FRAME_SIZE + RNNOISE_FRAME_SIZE * k := by ring
    rw [hmul, drop_len_append _ _ _ hplen]
    rw [ih (buf.drop RNNOISE_FRAME_SIZE)
      (by simp only [List.length_drop, RNNOISE_FRAME_SIZE] at *; omega)]
    rw [List.drop_drop]

/-- Claim C1 (amended): decoding a mono source with want_stereo set does
not leave the channel set empty — the decoder, configured for two
channels, upmixes the mono data, so the stereo branch runs: the channel
set holds two copies of the direct-decode mono buffer and the mono output
is the per-sample sum of the two copies, twice the direct decode. -/
theorem read_audio_data_mono_upmix (src : AudioSource)
    (h : ∀ f ∈ src.frames, f.length = 1) :
    read_audio_data (decodeSource src 1) false [] =
      some (src.frames.flatten, []) ∧
    read_audio_data (decodeSource src 2) true [] =
      some (src.frames.flatten.map (fun x => x + x),
        [src.frames.flatten, src.frames.flatten]) := by
  have hm := mono_map_convert_one src.frames h
  have hF := mono_flatten_length src.frames h
  have hD := dup_flatten_length src.frames h
  have hched : ∀ i, ((src.frames.map (convertFrame 2)).flatten.getD (2 * i) 0 =
      src.frames.flatten.getD i 0 ∧
      (src.frames.map (convertFrame 2)).flatten.getD (2 * i + 1) 0 =
      src.frames.flatten.getD i 0) := dup_flatten_getD src.frames h
  constructor
  · have := read_audio_data_mono_full (decodeSource src 1) [] rfl rfl rfl rfl
      (by simp only [decodeSource, hm]; exact hF)
    simp only [decodeSource, hm] at this
    simp only [decodeSource, hm]
    exact this
  · have := read_audio_data_stereo_full (decodeSource src 2) [] rfl rfl rfl rfl
      (by simp only [decodeSource]; exact hD)
    simp only [decodeSource] at this
    simp only [decodeSource]
    rw [this]
    have hch0 : (List.range src.frames.length).map
        (fun i => (src.frames.map (convertFrame 2)).flatten.getD (2 * i) 0) =
        src.frames.flatten := by
      apply List.ext_getElem (by simp [hF])
      intro i h1 h2
      simp only [List.getElem_map, List.getElem_range]
      rw [(hched i).1, List.getD_eq_getElem _ _ h2]
    have hch1 : (List.range src.frames.length).map
        (fun i => (src.frames.map (convertFrame 2)).flatten.getD (2 * i + 1) 0) =
        src.frames.flatten := by
      apply List.ext_getElem (by simp [hF])
      intro i h1 h2
      simp only [List.getElem_map, List.getElem_range]
      rw [(hched i).2, List.getD_eq_getElem _ _ h2]
    have hmono : (List.range src.frames.length).map
        (fun i => (src.frames.map (convertFrame 2)).flatten.getD (2 * i) 0 +
          (src.frames.map (convertFrame 2)).flatten.getD (2 * i + 1) 0) =
        src.frames.flatten.map (fun x => x + x) := by
      apply List.ext_getElem
        (by simp only [List.length_map, List.length_range]; omega)
      intro i h1 h2
      have hiF : i < src.frames.flatten.length := by
        simp only [List.length_map] at h2
        exact h2
      simp only [List.getElem_map, List.getElem_range]
      rw [(hched i).1, (hched i).2, List.getD_eq_getElem _ _ hiF]
    rw [hch0, hch1, hmono]

/-- Counterexample to claim C1 as stated: for the one-frame mono source
[[1]], the direct decode yields the mono buffer [1] with an empty channel
set, but decoding the same source with want_stereo set does not yield
(that buffer, empty channel set) — it yields ([2], [[1], [1]]). -/
theorem read_audio_data_mono_upmix_cex :
    read_audio_data (decodeSource ⟨1, [[1]]⟩ 1) false [] = some ([1], []) ∧
    read_audio_data (decodeSource ⟨1, [[1]]⟩ 2) true [] ≠ some ([1], []) := by
  constructor
  · norm_num [read_audio_data, decodeSource, convertFrame]
  · norm_num [read_audio_data, decodeSource, convertFrame, List.range_succ]

/-- Witness for read_audio_data_mono_upmix at the concrete mono source
src_mono_ex. -/
theorem read_audio_data_mono_upmix_witness :
    (∀ f ∈ src_mono_ex.frames, f.length = 1) ∧
    (read_audio_data (decodeSource src_mono_ex 1) false [] =
      some (src_mono_ex.frames.flatten, []) ∧
    read_audio_data (decodeSource src_mono_ex 2) true [] =
      some (src_mono_ex.frames.flatten.map (fun x => x + x),
        [src_mono_ex.frames.flatten, src_mono_ex.frames.flatten])) :=
  ⟨by decide, read_audio_data_mono_upmix src_mono_ex (by decide)⟩

/-- Claim C2: a successful full read of an interleaved 2-channel buffer of
N frames with want_stereo set produces two channels of length N holding
the even- and odd-indexed samples of each frame, and a mono output of
length N with mono[i] equal to the sum (not average) of the two channel
samples of frame i. -/
theorem read_audio_data_stereo_demux (d : Decoder) (s0 : List (List Sample))
    (hopen : d.openOk = true) (hlen : d.lengthOk = true)
    (hread : d.readOk = true) (hfr : d.framesRead = d.frameCount)
    (hdata : d.data.length = 2 * d.frameCount) :
    ∃ mono ch0 ch1,
      read_audio_data d true s0 = some (mono, [ch0, ch1]) ∧
      mono.length = d.frameCount ∧ ch0.length = d.frameCount ∧
      ch1.length = d.frameCount ∧
      ∀ i, i < d.frameCount →
        ch0.getD i 0 = d.data.getD (2 * i) 0 ∧
        ch1.getD i 0 = d.data.getD (2 * i + 1) 0 ∧
        mono.getD i 0 = ch0.getD i 0 + ch1.getD i 0 := by
  refine ⟨_, _, _, read_audio_data_stereo_full d s0 hopen hlen hread hfr hdata,
    by simp, by simp, by simp, ?_⟩
  intro i hi
  rw [range_map_getD _ _ _ hi, range_map_getD _ _ _ hi, range_map_getD _ _ _ hi]
  exact ⟨rfl, rfl, rfl⟩

/-- Witness for read_audio_data_stereo_demux at the concrete full stereo
read dec_stereo_ex. -/
theorem read_audio_data_stereo_demux_witness :
    dec_stereo_ex.openOk = true ∧ dec_stereo_ex.lengthOk = true ∧
    dec_stereo_ex.readOk = true ∧
    dec_stereo_ex.framesRead = dec_stereo_ex.frameCount ∧
    dec_stereo_ex.data.length = 2 * dec_stereo_ex.frameCount ∧
    (∃ mono ch0 ch1,
      read_audio_data dec_stereo_ex true [] = some (mono, [ch0, ch1]) ∧
      mono.length = dec_stereo_ex.frameCount ∧
      ch0.length = dec_stereo_ex.frameCount ∧
      ch1.length = dec_stereo_ex.frameCount ∧
      ∀ i, i < dec_stereo_ex.frameCount →
        ch0.getD i 0 = dec_stereo_ex.data.getD (2 * i) 0 ∧
        ch1.getD i 0 = dec_stereo_ex.data.getD (2 * i + 1) 0 ∧
        mono.getD i 0 = ch0.getD i 0 + ch1.getD i 0) :=
  ⟨rfl, rfl, rfl, rfl, by decide,
    read_audio_data_stereo_demux dec_stereo_ex [] rfl rfl rfl rfl (by decide)⟩

/-- Claim C3 (amended): read_audio_data returns false whenever the length
query or the frame read reports a failure result code; but a read that
reports a success code while delivering fewer frames than queried is
accepted as success (the source never compares frames_read with
frame_count), see read_audio_data_short_read_cex. -/
theorem read_audio_data_error_result (d : Decoder) (stereo : Bool)
    (s0 : List (List Sample)) (h : d.lengthOk = false ∨ d.readOk = false) :
    read_audio_data d stereo s0 = none := by
  unfold read_audio_data
  rcases h with h | h
  · by_cases ho : d.openOk = false <;> simp [ho, h]
  · by_cases ho : d.openOk = false <;> by_cases hl : d.lengthOk = false <;>
      simp [ho, hl, h]

/-- Counterexample to claim C3 as stated: the decoder response dec_short_ex
reports success from the read while delivering only 1 of the 2 queried
frames, and read_audio_data reports success (some, i.e. true), with the
unread tail left zero-filled — a partial read reported as success. -/
theorem read_audio_data_short_read_cex :
    read_audio_data dec_short_ex false [] = some ([5, 0], []) ∧
    dec_short_ex.framesRead < dec_short_ex.frameCount := by
  constructor
  · norm_num [read_audio_data, dec_short_ex]
  · decide

/-- Witness for read_audio_data_error_result at the concrete failed length
query dec_badlen_ex. -/
theorem read_audio_data_error_result_witness :
    (dec_badlen_ex.lengthOk = false ∨ dec_badlen_ex.readOk = false) ∧
    read_audio_data dec_badlen_ex false [] = none :=
  ⟨Or.inl rfl, read_audio_data_error_result dec_badlen_ex false [] (Or.inl rfl)⟩

theorem int32_wrap_le (x : Int) (h : -(2 ^ 31) ≤ x) : int32_wrap x ≤ x := by
  unfold int32_wrap
  omega

theorem int32_wrap_eq_self (x : Int) (h1 : -(2 ^ 31) ≤ x)
    (h2 : x ≤ 2 ^ 31 - 1) : int32_wrap x = x := by
  unfold int32_wrap
  omega

/-- Claim C4: for non-negative t and n_samples > 0, timestamp_to_sample
returns an index clamped to [0, n_samples - 1]. -/
theorem timestamp_to_sample_clamped (t n rate : Int) (ht : 0 ≤ t)
    (hn : 0 < n) :
    0 ≤ timestamp_to_sample t n rate ∧ timestamp_to_sample t n rate ≤ n - 1 := by
  unfold timestamp_to_sample
  refine ⟨le_max_left _ _, max_le (by omega) (le_trans (min_le_left _ _)
    (le_trans (int32_wrap_le (n - 1) (by omega)) (by omega)))⟩

/-- Witness for timestamp_to_sample_clamped at t = 7, n_samples = 5,
rate = 16000. -/
theorem timestamp_to_sample_clamped_witness :
    (0 : Int) ≤ 7 ∧ (0 : Int) < 5 ∧
    (0 ≤ timestamp_to_sample 7 5 16000 ∧ timestamp_to_sample 7 5 16000 ≤ 5 - 1) :=
  ⟨by decide, by decide, timestamp_to_sample_clamped 7 5 16000 (by decide)
    (by decide)⟩

/-- Claim C5 (amended): to_timestamp handles t = 0 and multi-hour values
without arithmetic overflow for all t in [0, 773094113279999] (any value
keeping t * 10 within int64 and the hour field within int); it does NOT
stay overflow-free over the whole 64-bit signed range, see
to_timestamp_overflow_cex. -/
theorem to_timestamp_bounded_safe (t : Int) (h1 : 0 ≤ t)
    (h2 : t ≤ 773094113279999) : to_timestamp_overflow_free t := by
  have e0 : tt_msec0 t = t * 10 := rfl
  have e1 : tt_hr t = (t * 10) / 3600000 := by
    unfold tt_hr
    rw [e0, Int.tdiv_eq_ediv (by omega) (by omega)]
  have m1 : tt_msec1 t = (t * 10) % 3600000 := by
    unfold tt_msec1
    rw [e0, e1]
    omega
  have e2 : tt_min t = tt_msec1 t / 60000 := by
    unfold tt_min
    rw [Int.tdiv_eq_ediv (by omega) (by omega)]
  have m2 : tt_msec2 t = tt_msec1 t % 60000 := by
    unfold tt_msec2
    rw [e2]
    omega
  have e3 : tt_sec t = tt_msec2 t / 1000 := by
    unfold tt_sec
    rw [Int.tdiv_eq_ediv (by omega) (by omega)]
  have m3 : tt_msec3 t = tt_msec2 t % 1000 := by
    unfold tt_msec3
    rw [e3]
    omega
  unfold to_timestamp_overflow_free in_int64 in_int32
  refine ⟨⟨by omega, by omega⟩, ?_, ?_, ?_, ?_, ?_, ?_, ?_⟩ <;>
    constructor <;> omega

/-- Counterexample to claim C5 as stated: t = 10^18 is inside the 64-bit
signed range, yet the first step of to_timestamp, msec = t * 10, exceeds
INT64_MAX, so the computation overflows there. -/
theorem to_timestamp_overflow_cex :
    in_int64 (10 ^ 18) ∧ ¬ to_timestamp_overflow_free (10 ^ 18) := by
  constructor
  · constructor <;> decide
  · intro h
    exact absurd h.2.1.2 (by decide)

/-- Witness for to_timestamp_bounded_safe at t = 360000000 (1000 hours). -/
theorem to_timestamp_bounded_safe_witness :
    (0 : Int) ≤ 360000000 ∧ (360000000 : Int) ≤ 773094113279999 ∧
    to_timestamp_overflow_free 360000000 :=
  ⟨by decide, by decide, to_timestamp_bounded_safe 360000000 (by decide)
    (by decide)⟩

/-- Claim C6: the three reference cases of the timestamp formatter:
to_timestamp 0 false = "00:00:00.000", to_timestamp 6000 false =
"00:01:00.000", and to_timestamp 500 true = "00:00:05,000". -/
theorem to_timestamp_reference_cases :
    to_timestamp 0 false = "00:00:00.000" ∧
    to_timestamp 6000 false = "00:01:00.000" ∧
    to_timestamp 500 true = "00:00:05,000" := by
  refine ⟨by decide, by decide, by decide⟩

/-- Claim C7: on nonempty input, denoise_audio is exactly
upsample-frameloop-downsample, and the frame loop processes the upsampled
buffer in consecutive non-overlapping 480-sample frames: each full frame
of the output equals the external capability's transform of that frame
scaled up by 32768 beforehand and scaled back down by 32768 afterwards;
the trailing partial frame (everything past the last multiple of 480) is
returned unmodified for every possible external transform, so it is never
handed to the capability; and the loop preserves the buffer length. -/
theorem denoise_audio_frame_loop (rn : List Sample → List Sample)
    (r_up r_down : LinearResampler) (g : Bool) (pcm : List Sample)
    (hrn : ∀ l, (rn l).length = l.length) (hpcm : pcm ≠ []) :
    denoise_audio rn r_up r_down g pcm =
      resample_audio r_down g (denoise_frames rn (resample_audio r_up g pcm)) ∧
    (∀ k, k < (resample_audio r_up g pcm).length / RNNOISE_FRAME_SIZE →
      ((denoise_frames rn (resample_audio r_up g pcm)).drop
          (RNNOISE_FRAME_SIZE * k)).take RNNOISE_FRAME_SIZE =
        (rn ((((resample_audio r_up g pcm).drop
            (RNNOISE_FRAME_SIZE * k)).take RNNOISE_FRAME_SIZE).map
          (fun x => x * 32768))).map (fun x => x / 32768)) ∧
    (denoise_frames rn (resample_audio r_up g pcm)).drop
        (RNNOISE_FRAME_SIZE *
          ((resample_audio r_up g pcm).length / RNNOISE_FRAME_SIZE)) =
      (resample_audio r_up g pcm).drop
        (RNNOISE_FRAME_SIZE *
          ((resample_audio r_up g pcm).length / RNNOISE_FRAME_SIZE)) ∧
    (denoise_frames rn (resample_audio r_up g pcm)).length =
      (resample_audio r_up g pcm).length := by
  refine ⟨?_, ?_, ?_, ?_⟩
  · unfold denoise_audio
    simp [hpcm]
  · intro k hk
    exact denoise_frames_chunk rn hrn k _ hk
  · exact denoise_frames_tail rn hrn _ _ le_rfl
  · exact denoise_frames_len rn hrn _ _ le_rfl

/-- Witness for denoise_audio_frame_loop with the identity frame transform
and identity resamplers on the one-sample buffer [1]. -/
theorem denoise_audio_frame_loop_witness :
    (∀ l : List Sample, (id l : List Sample).length = l.length) ∧
    ([(1 : Sample)] ≠ []) ∧
    denoise_audio id ⟨id⟩ ⟨id⟩ true [1] =
      resample_audio ⟨id⟩ true (denoise_frames id (resample_audio ⟨id⟩ true [1])) :=
  ⟨fun l => rfl, by simp,
    (denoise_audio_frame_loop id ⟨id⟩ ⟨id⟩ true [1] (fun l => rfl) (by simp)).1⟩

/-- Claim C8: resample_audio maps an empty input to an empty output for
every resampler instance and every state of the init flag, and whenever
the process-wide state is not initialized it returns the input unchanged —
pass-through, not a failure (the function is total and returns a
buffer). -/
theorem resample_audio_empty_and_uninit :
    (∀ (r : LinearResampler) (g : Bool), resample_audio r g [] = []) ∧
    (∀ (r : LinearResampler) (x : List Sample), resample_audio r false x = x) := by
  constructor
  · intro r g
    simp [resample_audio]
  · intro r x
    simp [resample_audio]

/-- Claim C9: init_resamplers is idempotent — when the process-wide state
is already initialized it returns true and leaves the state unchanged,
whatever the outcomes of the (unreached) external init calls would be. -/
theorem init_resamplers_idempotent (st : ResamplerState)
    (u d : Option LinearResampler) (h : st.g_inited = true) :
    init_resamplers st u d = (st, true) := by
  simp [init_resamplers, h]

/-- Witness for init_resamplers_idempotent at a concrete initialized
state. -/
theorem init_resamplers_idempotent_witness :
    (⟨some ⟨fun l => l⟩, some ⟨fun l => l⟩, true⟩ : ResamplerState).g_inited =
      true ∧
    init_resamplers ⟨some ⟨fun l => l⟩, some ⟨fun l => l⟩, true⟩ none none =
      (⟨some ⟨fun l => l⟩, some ⟨fun l => l⟩, true⟩, true) :=
  ⟨rfl, init_resamplers_idempotent _ none none rfl⟩

/-- Claim C10 (amended): for every t of any sign and every n_samples with
INT_MIN < n_samples ≤ 0, timestamp_to_sample returns exactly 0: the upper
clamp bound n_samples - 1 stays in int range, is negative, so min
collapses below 0 and max 0 yields 0.  At n_samples = INT_MIN the int
subtraction n_samples - 1 wraps to INT_MAX and the result is not clamped
to 0, see timestamp_to_sample_nonpos_zero_cex. -/
theorem timestamp_to_sample_nonpos_zero (t n rate : Int)
    (hlo : -(2 ^ 31) < n) (hn : n ≤ 0) :
    timestamp_to_sample t n rate = 0 := by
  unfold timestamp_to_sample
  rw [int32_wrap_eq_self (n - 1) (by omega) (by omega)]
  exact max_eq_left (le_trans (min_le_left _ _) (by omega))

/-- Counterexample to claim C10 as stated: at n_samples = INT_MIN (a
nonpositive int), t = 1 and rate = 16000, the int expression
(int) n_samples - 1 wraps to INT_MAX, so the computed index 160 survives
the clamp and the function returns 160, not 0. -/
theorem timestamp_to_sample_nonpos_zero_cex :
    (-(2 ^ 31) : Int) ≤ 0 ∧ timestamp_to_sample 1 (-(2 ^ 31)) 16000 = 160 ∧
    (160 : Int) ≠ 0 := by
  refine ⟨by decide, by decide, by decide⟩

/-- Witness for timestamp_to_sample_nonpos_zero at t = -3, n_samples = 0,
rate = 16000. -/
theorem timestamp_to_sample_nonpos_zero_witness :
    -(2 ^ 31) < (0 : Int) ∧ (0 : Int) ≤ 0 ∧
    timestamp_to_sample (-3) 0 16000 = 0 :=
  ⟨by decide, by decide,
    timestamp_to_sample_nonpos_zero (-3) 0 16000 (by decide) (by decide)⟩

end CommonWhisper
